import Mathlib

/-!
Verification development for the stripe2qbo QuickBooks Online client
(src/stripe2qbo/qbo/QBO.py, src/stripe2qbo/qbo/models.py,
src/stripe2qbo/settings.py).

The embedding is shallow:
* JSON request/response bodies are values of the `Json` inductive;
  Python dict literals become `Json.obj` with the same key order, and
  dict item assignment becomes `Json.setKey` (update in place, append
  at the end when the key is new), mirroring Python dict semantics.
* Numeric fields are modelled as rationals; none of the claims under
  study depends on floating-point rounding.
* The remote QuickBooks service is modelled by an explicit state
  (`QBOState`): a query is a filter over that state and a create
  appends a record with a fresh server-assigned id.  Each client
  operation returns an `OpResult`: the value or error, the state after
  the call, and the list of HTTP requests that were issued.
* Fallible response parsing is `Except QBOError`: the Python
  `raise Exception(...)` paths with the response body attached become
  `QBOError.remote`/`QBOError.query`, a bare Python `KeyError` from
  direct subscripting becomes `QBOError.keyError`, and a pydantic
  validation failure becomes `QBOError.validation`.
-/

/-- JSON values, as produced by the client when serializing request
bodies.  Python `None` is `Json.null`. -/
inductive Json where
  | null : Json
  | str : String → Json
  | num : Rat → Json
  | jbool : Bool → Json
  | arr : List Json → Json
  | obj : List (String × Json) → Json

/-- Key lookup in an association list, first match wins (Python dict
subscripting on the serialized object). -/
def lookupKey : List (String × Json) → String → Option Json
  | [], _ => none
  | (k, v) :: rest, key => if k = key then some v else lookupKey rest key

/-- Lookup of a key in a JSON object; `none` on non-objects and on
missing keys. -/
def Json.lookup : Json → String → Option Json
  | .obj kvs, key => lookupKey kvs key
  | _, _ => none

/-- Update of a key in an association list: an existing key keeps its
position and gets the new value, a new key is appended at the end.
This is exactly Python dict item assignment. -/
def setKeyList : List (String × Json) → String → Json → List (String × Json)
  | [], key, v => [(key, v)]
  | (k, w) :: rest, key, v =>
      if k = key then (key, v) :: rest else (k, w) :: setKeyList rest key v

/-- Python dict item assignment `body[key] = v` on a JSON object. -/
def Json.setKey : Json → String → Json → Json
  | .obj kvs, key, v => .obj (setKeyList kvs key v)
  | j, _, _ => j

/-- Serialize an optional string: Python passes `None` through as JSON
null. -/
def optJson : Option String → Json
  | some v => .str v
  | none => .null

/-- A calendar date (the time-of-day component of the Python datetime
plays no role: `strftime` with format `%Y-%m-%d` drops it). -/
structure Date where
  year : Nat
  month : Nat
  day : Nat

/-- Left-pad a numeral with zeros to the given width. -/
def padZeros (width : Nat) (n : Nat) : String :=
  let s := toString n
  String.mk (List.replicate (width - s.length) '0') ++ s

/-- `datetime.strftime` with format string `%Y-%m-%d`. -/
def Date.strftime (d : Date) : String :=
  padZeros 4 d.year ++ "-" ++ padZeros 2 d.month ++ "-" ++ padZeros 2 d.day

/-! ## Domain models (src/stripe2qbo/qbo/models.py) -/

/-- models.py `CurrencyRef`. -/
structure CurrencyRef where
  value : String
  name : Option String

/-- models.py `ItemRef`. -/
structure ItemRef where
  value : String
  name : Option String

/-- models.py `TaxRateRef`. -/
structure TaxRateRef where
  value : String
  name : Option String

/-- models.py `TaxCodeRef`. -/
structure TaxCodeRef where
  value : String

/-- models.py `Customer`. -/
structure Customer where
  DisplayName : String
  Id : String
  CurrencyRef : CurrencyRef

/-- models.py `TaxRateDetail`. -/
structure TaxRateDetail where
  TaxRateRef : TaxRateRef

/-- models.py `TaxRateList`. -/
structure TaxRateList where
  TaxRateDetail : List TaxRateDetail

/-- models.py `TaxCode`. -/
structure TaxCode where
  Id : String
  SalesTaxRateList : TaxRateList

/-- models.py `TaxLineDetail`. -/
structure TaxLineDetail where
  TaxRateRef : TaxRateRef
  PercentBased : Bool := true
  TaxPercent : Rat
  NetAmountTaxable : Rat

/-- models.py `TaxLineModel`. -/
structure TaxLineModel where
  DetailType : String := "TaxLineDetail"
  Amount : Rat
  TaxLineDetail : TaxLineDetail

/-- models.py `TaxDetail`. -/
structure TaxDetail where
  TotalTax : Rat
  TaxLine : Option (List TaxLineModel) := none
  TxnTaxCodeRef : Option TaxCodeRef := none

/-- models.py `SalesItemLineDetail`. -/
structure SalesItemLineDetail where
  ItemRef : ItemRef
  TaxCodeRef : Option TaxCodeRef

/-- models.py `InvoiceLine`. -/
structure InvoiceLine where
  Amount : Rat
  Description : String
  SalesItemLineDetail : SalesItemLineDetail
  DetailType : String := "SalesItemLineDetail"

/-- pydantic `model_dump` of an `ItemRef`: keys in field declaration
order, optional fields dumped as null when absent. -/
def ItemRef.model_dump (r : ItemRef) : Json :=
  .obj [("value", .str r.value), ("name", optJson r.name)]

/-- pydantic `model_dump` of a `TaxCodeRef`. -/
def TaxCodeRef.model_dump (r : TaxCodeRef) : Json :=
  .obj [("value", .str r.value)]

/-- pydantic `model_dump` of a `SalesItemLineDetail`. -/
def SalesItemLineDetail.model_dump (d : SalesItemLineDetail) : Json :=
  .obj [("ItemRef", d.ItemRef.model_dump),
        ("TaxCodeRef", match d.TaxCodeRef with
          | some t => t.model_dump
          | none => .null)]

/-- pydantic `model_dump` of an `InvoiceLine`: this is how each line of
`create_invoice` is serialized into the `Line` array. -/
def InvoiceLine.model_dump (l : InvoiceLine) : Json :=
  .obj [("Amount", .num l.Amount),
        ("Description", .str l.Description),
        ("SalesItemLineDetail", l.SalesItemLineDetail.model_dump),
        ("DetailType", .str l.DetailType)]

/-- pydantic `model_dump` of a `TaxRateRef`. -/
def TaxRateRef.model_dump (r : TaxRateRef) : Json :=
  .obj [("value", .str r.value), ("name", optJson r.name)]

/-- pydantic `model_dump` of a `TaxLineDetail`. -/
def TaxLineDetail.model_dump (d : TaxLineDetail) : Json :=
  .obj [("TaxRateRef", d.TaxRateRef.model_dump),
        ("PercentBased", .jbool d.PercentBased),
        ("TaxPercent", .num d.TaxPercent),
        ("NetAmountTaxable", .num d.NetAmountTaxable)]

/-- pydantic `model_dump` of a `TaxLineModel`. -/
def TaxLineModel.model_dump (l : TaxLineModel) : Json :=
  .obj [("DetailType", .str l.DetailType),
        ("Amount", .num l.Amount),
        ("TaxLineDetail", l.TaxLineDetail.model_dump)]

/-- pydantic `model_dump` of a `TaxDetail` (the `TxnTaxDetail` of an
invoice body). -/
def TaxDetail.model_dump (t : TaxDetail) : Json :=
  .obj [("TotalTax", .num t.TotalTax),
        ("TaxLine", match t.TaxLine with
          | some ls => .arr (ls.map TaxLineModel.model_dump)
          | none => .null),
        ("TxnTaxCodeRef", match t.TxnTaxCodeRef with
          | some r => r.model_dump
          | none => .null)]

/-! ## Request bodies built by the client (QBO.py) -/

/-- Body of `POST customer` as built by `QBO.create_customer`. -/
def create_customer_body (customer_name currency : String) : Json :=
  .obj [("DisplayName", .str customer_name),
        ("CurrencyRef", .obj [("value", .str currency)])]

/-- Body of `POST item` as built by `QBO.create_item`. -/
def create_item_body (item_name account_id : String) : Json :=
  .obj [("Name", .str item_name),
        ("Type", .str "Service"),
        ("IncomeAccountRef", .obj [("value", .str account_id)])]

/-- Body of `POST /account` as built by `QBO.create_account`. -/
def create_account_body (account_name account_type : String) : Json :=
  .obj [("Name", .str account_name),
        ("AccountType", .str account_type)]

/-- Body of `POST invoice` as built by `QBO.create_invoice`.  The dict
literal sets every key (optional ones to null when the argument is
absent); the two trailing conditional assignments then rewrite
`DueDate` and `TxnDate`, so a supplied `created_date` overwrites
whatever `txn_date` put into `TxnDate`. -/
def create_invoice_body (customer_id : String) (lines : List InvoiceLine)
    (created_date : Option Date) (currency : Option String)
    (private_note : Option String) (due_date : Option Date)
    (txn_date : Option Date) (tax_detail : Option TaxDetail)
    (inv_number : Option String) : Json :=
  let body : Json :=
    .obj [("CustomerRef", .obj [("value", .str customer_id)]),
          ("CurrencyRef", .obj [("value", optJson currency)]),
          ("Line", .arr (lines.map InvoiceLine.model_dump)),
          ("TxnDate", match txn_date with
            | some d => .str d.strftime
            | none => .null),
          ("DueDate", match due_date with
            | some d => .str d.strftime
            | none => .null),
          ("TxnTaxDetail", match tax_detail with
            | some t => t.model_dump
            | none => .null),
          ("PrivateNote", optJson private_note),
          ("DocNumber", optJson inv_number)]
  let body := match due_date with
    | some d => body.setKey "DueDate" (.str d.strftime)
    | none => body
  match created_date with
  | some d => body.setKey "TxnDate" (.str d.strftime)
  | none => body

/-- The single payment line attached when an invoice id is linked. -/
def payment_line (amount : Rat) (invoice_id : String) : Json :=
  .obj [("Amount", .num amount),
        ("LinkedTxn", .arr [.obj [("TxnId", .str invoice_id),
                                  ("TxnType", .str "Invoice")]])]

/-- Body of `POST /payment` as built by `QBO.create_invoice_payment`.
`ExchangeRate` is the Python expression `exchange_rate or "1"`: any
falsy rate (absent, or equal to zero) is replaced by the string
literal `"1"`.  The `Line` key is added afterwards, only when
`invoice_id` is truthy (present and non-empty). -/
def create_invoice_payment_body (invoice_id : Option String)
    (customer_id : String) (amount : Rat) (date : Date)
    (qbo_account_id : String) (currency : String)
    (exchange_rate : Option Rat) (private_note : String) : Json :=
  let body : Json :=
    .obj [("TotalAmt", .num amount),
          ("CustomerRef", .obj [("value", .str customer_id)]),
          ("TxnDate", .str date.strftime),
          ("DepositToAccountRef", .obj [("value", .str qbo_account_id)]),
          ("PrivateNote", .str private_note),
          ("CurrencyRef", .obj [("value", .str currency)]),
          ("ExchangeRate", match exchange_rate with
            | some r => if r = 0 then .str "1" else .num r
            | none => .str "1")]
  match invoice_id with
  | some iid =>
      if iid = "" then body else body.setKey "Line" (.arr [payment_line amount iid])
  | none => body

/-- Body of `POST /purchase` as built by `QBO.create_expense`. -/
def create_expense_body (amount : Rat) (date : Date)
    (bank_account_id vendor_id expense_account_id : String)
    (private_note : String) (description : Option String) : Json :=
  .obj [("TotalAmt", .num amount),
        ("AccountRef", .obj [("value", .str bank_account_id)]),
        ("PaymentType", .str "Check"),
        ("Line", .arr [.obj [("Amount", .num amount),
                             ("DetailType", .str "AccountBasedExpenseLineDetail"),
                             ("AccountBasedExpenseLineDetail",
                               .obj [("AccountRef", .obj [("value", .str expense_account_id)])]),
                             ("Description", optJson description)]]),
        ("EntityRef", .obj [("value", .str vendor_id)]),
        ("TxnDate", .str date.strftime),
        ("PrivateNote", .str private_note)]

/-- Body of `POST /transfer` as built by `QBO.create_transfer`. -/
def create_transfer_body (amount : Rat) (date : Date)
    (source_account_id destination_account_id : String)
    (private_note : String) : Json :=
  .obj [("Amount", .num amount),
        ("FromAccountRef", .obj [("value", .str source_account_id)]),
        ("ToAccountRef", .obj [("value", .str destination_account_id)]),
        ("TxnDate", .str date.strftime),
        ("PrivateNote", .str private_note)]

/-! ## Settings persistence (src/stripe2qbo/settings.py) -/

/-- Python `str.capitalize`: first character uppercased, the rest
lowercased. -/
def pyCapitalize (w : String) : String :=
  match w.data with
  | [] => ""
  | ch :: cs => String.mk (ch.toUpper :: cs.map Char.toLower)

/-- Python `str.split("_")` on the character list of a string: cut at
every underscore, keeping empty pieces. -/
def splitOnUnderscore : List Char → List (List Char)
  | [] => [[]]
  | ch :: cs =>
      let rest := splitOnUnderscore cs
      if ch = '_' then [] :: rest
      else
        match rest with
        | [] => [[ch]]
        | w :: ws => (ch :: w) :: ws

/-- settings.py `_snake_to_camel`: split on underscores, keep the
first word, capitalize the rest, join. -/
def _snake_to_camel (s : String) : String :=
  match (splitOnUnderscore s.data).map String.mk with
  | [] => ""
  | w :: ws => w ++ String.join (ws.map pyCapitalize)

/-- settings.py `Settings`.  The source lists
`stripe_fee_account_id` twice; Python keeps a single field at its first
position, so the effective field order is the one below.
`default_income_account_id` is the only optional field. -/
structure Settings where
  stripe_clearing_account_id : String
  stripe_payout_account_id : String
  stripe_fee_account_id : String
  stripe_vendor_id : String
  default_income_account_id : Option String := none
  default_tax_code_id : String
  exempt_tax_code_id : String

/-- pydantic `model_dump()` of a `Settings` value.  Called without
`by_alias`, so the keys are the snake_case field names, not the
camel-cased aliases produced by the alias generator. -/
def Settings.model_dump (s : Settings) : Json :=
  .obj [("stripe_clearing_account_id", .str s.stripe_clearing_account_id),
        ("stripe_payout_account_id", .str s.stripe_payout_account_id),
        ("stripe_fee_account_id", .str s.stripe_fee_account_id),
        ("stripe_vendor_id", .str s.stripe_vendor_id),
        ("default_income_account_id", optJson s.default_income_account_id),
        ("default_tax_code_id", .str s.default_tax_code_id),
        ("exempt_tax_code_id", .str s.exempt_tax_code_id)]

/-- settings.py `save`: the JSON object written to the settings file is
`settings.model_dump()`. -/
def save (s : Settings) : Json :=
  s.model_dump

/-- Field lookup during pydantic validation of `Settings`: the
camel-cased validation alias is consulted first, then (because of
`populate_by_name`) the field name itself. -/
def fieldLookup (kvs : List (String × Json)) (field : String) : Option Json :=
  match lookupKey kvs (_snake_to_camel field) with
  | some v => some v
  | none => lookupKey kvs field

/-- A required string field of `Settings`: must be present (under alias
or name) and be a string. -/
def requiredStrField (kvs : List (String × Json)) (field : String) : Option String :=
  match fieldLookup kvs field with
  | some (.str v) => some v
  | _ => none

/-- An optional string field of `Settings` (default `None`): absent or
null gives `none`, a string gives `some`, anything else is a
validation failure. -/
def optionalStrField (kvs : List (String × Json)) (field : String) :
    Option (Option String) :=
  match fieldLookup kvs field with
  | some (.str v) => some (some v)
  | some .null => some none
  | none => some none
  | some _ => none

/-- pydantic validation `Settings(**data)`. -/
def parseSettings (j : Json) : Option Settings :=
  match j with
  | .obj kvs =>
      match requiredStrField kvs "stripe_clearing_account_id",
            requiredStrField kvs "stripe_payout_account_id",
            requiredStrField kvs "stripe_fee_account_id",
            requiredStrField kvs "stripe_vendor_id",
            optionalStrField kvs "default_income_account_id",
            requiredStrField kvs "default_tax_code_id",
            requiredStrField kvs "exempt_tax_code_id" with
      | some a, some b, some f, some v, some inc, some dt, some et =>
          some ⟨a, b, f, v, inc, dt, et⟩
      | _, _, _, _, _, _, _ => none
  | _ => none

/-- settings.py `load_from_file`: an absent file yields `None`; a
present file is parsed, a validation failure raising to the caller. -/
def load_from_file (file : Option Json) : Except String (Option Settings) :=
  match file with
  | none => .ok none
  | some j =>
      match parseSettings j with
      | some s => .ok (some s)
      | none => .error "ValidationError"

/-! ## Errors and response parsing (QBO.py) -/

/-- The failure modes of the client.  `configuration` is the guard in
`_request` before any network call; `query` and `remote` carry the raw
response body, as the corresponding `raise` sites interpolate
`response.json()` into the message; `keyError` is a bare Python
`KeyError` from subscripting a missing key (no response body
attached); `validation` is a pydantic model validation failure. -/
inductive QBOError where
  | configuration : String → QBOError
  | query : Json → QBOError
  | remote : String → Json → QBOError
  | conflict : String → QBOError
  | keyError : String → QBOError
  | validation : String → QBOError

/-- The raw response body an error carries, when it carries one. -/
def QBOError.carriedBody : QBOError → Option Json
  | .query b => some b
  | .remote _ b => some b
  | _ => none

/-- pydantic validation of a `CurrencyRef` from response JSON
(`name` has no default in models.py, so it must be present, possibly
null). -/
def parseCurrencyRef (j : Json) : Option CurrencyRef :=
  match j.lookup "value", j.lookup "name" with
  | some (.str v), some (.str n) => some ⟨v, some n⟩
  | some (.str v), some .null => some ⟨v, none⟩
  | _, _ => none

/-- pydantic validation of a `Customer` from response JSON. -/
def parseCustomer (j : Json) : Option Customer :=
  match j.lookup "DisplayName", j.lookup "Id", j.lookup "CurrencyRef" with
  | some (.str dn), some (.str i), some cj =>
      match parseCurrencyRef cj with
      | some cr => some ⟨dn, i, cr⟩
      | none => none
  | _, _, _ => none

/-- Response handling of `QBO.create_customer`: the one create that
checks its envelope, raising with the raw body when `Customer` is
missing, then validating the entity. -/
def create_customer_parse (resp : Json) : Except QBOError Customer :=
  match resp.lookup "Customer" with
  | none => .error (.remote "Error creating customer" resp)
  | some cj =>
      match parseCustomer cj with
      | some cu => .ok cu
      | none => .error (.validation "Customer")

/-- Response handling of `QBO.create_item`: direct subscripting of
`Item`, `Id` and `Name` with no envelope check, so a missing key is a
bare `KeyError`. -/
def create_item_parse (resp : Json) : Except QBOError ItemRef :=
  match resp.lookup "Item" with
  | none => .error (.keyError "Item")
  | some ij =>
      match ij.lookup "Id" with
      | none => .error (.keyError "Id")
      | some idv =>
          match ij.lookup "Name" with
          | none => .error (.keyError "Name")
          | some nv =>
              match idv, nv with
              | .str i, .str n => .ok ⟨i, some n⟩
              | _, _ => .error (.validation "ItemRef")

/-- Response handling shared by the remaining creates: subscript the
envelope key, then `Id`, with no existence check — a missing key is a
bare `KeyError` carrying no response body. -/
def responseEntityId (envelope : String) (resp : Json) : Except QBOError Json :=
  match resp.lookup envelope with
  | none => .error (.keyError envelope)
  | some ej =>
      match ej.lookup "Id" with
      | none => .error (.keyError "Id")
      | some v => .ok v

/-- Response handling of `QBO.create_account` (`["Account"]["Id"]`). -/
def create_account_parse (resp : Json) : Except QBOError Json :=
  responseEntityId "Account" resp

/-- Response handling of `QBO.create_invoice` (`["Invoice"]["Id"]`). -/
def create_invoice_parse (resp : Json) : Except QBOError Json :=
  responseEntityId "Invoice" resp

/-- Response handling of `QBO.create_invoice_payment`
(`["Payment"]["Id"]`). -/
def create_invoice_payment_parse (resp : Json) : Except QBOError Json :=
  responseEntityId "Payment" resp

/-- Response handling of `QBO.create_expense` (`["Purchase"]["Id"]`). -/
def create_expense_parse (resp : Json) : Except QBOError Json :=
  responseEntityId "Purchase" resp

/-- Response handling of `QBO.create_transfer` (`["Transfer"]["Id"]`). -/
def create_transfer_parse (resp : Json) : Except QBOError Json :=
  responseEntityId "Transfer" resp

/-- Serialization of a `CurrencyRef` as it appears in a query/create
response. -/
def currencyRefToJson (cr : CurrencyRef) : Json :=
  .obj [("value", .str cr.value), ("name", optJson cr.name)]

/-- Serialization of a `Customer` as it appears in a create response. -/
def customerToJson (cu : Customer) : Json :=
  .obj [("DisplayName", .str cu.DisplayName),
        ("Id", .str cu.Id),
        ("CurrencyRef", currencyRefToJson cu.CurrencyRef)]

/-! ## The client and the remote state (QBO.py) -/

/-- auth `Token`. -/
structure Token where
  realm_id : String
  access_token : String

/-- The `QBO` client: two authentication fields, `None` until
`set_token` is called. -/
structure QBO where
  realm_id : Option String := none
  access_token : Option String := none

/-- `QBO.set_token`. -/
def QBO.set_token (c : QBO) (t : Token) : QBO :=
  { c with realm_id := some t.realm_id, access_token := some t.access_token }

/-- The guard at the top of `QBO._request`:
`self.access_token is None or self.realm_id is None`. -/
def QBO.tokenMissing (c : QBO) : Bool :=
  c.access_token.isNone || c.realm_id.isNone

/-- A server-side item record, as created by `POST item`. -/
structure ItemRec where
  Id : String
  Name : String
  incomeAccountId : String

/-- A server-side account record, as created by `POST /account`. -/
structure AccountRec where
  Id : String
  Name : String
  AccountType : String

/-- The remote QuickBooks company state the client talks to.  Ids are
assigned by the server from the `nextId` counter. -/
structure QBOState where
  customers : List Customer := []
  items : List ItemRec := []
  accounts : List AccountRec := []
  taxCodes : List TaxCode := []
  nextId : Nat := 0

/-- A fresh server-assigned entity id. -/
def QBOState.freshId (s : QBOState) : String :=
  toString s.nextId

/-- An HTTP request issued through `qbo_request`. -/
structure Request where
  path : String
  method : String
  body : Option Json

/-- A GET query request as issued by `QBO._query`. -/
def queryRequest (q : String) : Request :=
  ⟨"/query?query=" ++ q, "GET", none⟩

/-- The outcome of one client operation: the returned value or the
raised error, the remote state after the call, and the requests that
were issued (in order). -/
structure OpResult (α : Type) where
  result : Except QBOError α
  state : QBOState
  requests : List Request

/-- The failure every operation returns when the token guard in
`_request` fires: no request is issued and the remote state is
untouched. -/
def configFail {α : Type} (s : QBOState) : OpResult α :=
  ⟨.error (.configuration "QBO token not set"), s, []⟩

/-- `QBO.get_tax_code`: query by id, `None` when there is no match,
otherwise the first match. -/
def QBO.get_tax_code (c : QBO) (s : QBOState) (tax_code_id : String) :
    OpResult (Option TaxCode) :=
  if c.tokenMissing then configFail s else
  ⟨.ok ((s.taxCodes.filter fun t => t.Id == tax_code_id).head?), s,
    [queryRequest ("select * from TaxCode where Id = " ++ tax_code_id)]⟩

/-- `QBO.get_customer_by_name`: exact-match query on `DisplayName`,
`None` when there is no match, otherwise the first match. -/
def QBO.get_customer_by_name (c : QBO) (s : QBOState) (customer_name : String) :
    OpResult (Option Customer) :=
  if c.tokenMissing then configFail s else
  ⟨.ok ((s.customers.filter fun cu => cu.DisplayName == customer_name).head?), s,
    [queryRequest ("select * from Customer where DisplayName = " ++ customer_name)]⟩

/-- `QBO.create_customer`: `POST customer`; the server appends a
customer with the requested display name and currency under a fresh
id. -/
def QBO.create_customer (c : QBO) (s : QBOState) (customer_name currency : String) :
    OpResult Customer :=
  if c.tokenMissing then configFail s else
  let cust : Customer := ⟨customer_name, s.freshId, ⟨currency, none⟩⟩
  ⟨.ok cust,
    { s with customers := s.customers ++ [cust], nextId := s.nextId + 1 },
    [⟨"customer", "POST", some (create_customer_body customer_name currency)⟩]⟩

/-- `QBO.get_or_create_customer`: look up by name; when absent, create,
and when the created customer comes back with a different currency,
create a second one under the suffixed name.  The currency check sits
inside the not-found branch and inspects the customer returned by
`create_customer`, not the one found by the lookup. -/
def QBO.get_or_create_customer (c : QBO) (s : QBOState) (customer_name currency : String) :
    OpResult Customer :=
  let r := c.get_customer_by_name s customer_name
  match r.result with
  | .error e => ⟨.error e, r.state, r.requests⟩
  | .ok (some cust) => ⟨.ok cust, r.state, r.requests⟩
  | .ok none =>
      let r2 := c.create_customer r.state customer_name currency
      match r2.result with
      | .error e => ⟨.error e, r2.state, r.requests ++ r2.requests⟩
      | .ok cust =>
          if cust.CurrencyRef.value ≠ currency then
            let r3 := c.create_customer r2.state
              (customer_name ++ " (" ++ currency ++ ")") currency
            ⟨r3.result, r3.state, r.requests ++ r2.requests ++ r3.requests⟩
          else
            ⟨.ok cust, r2.state, r.requests ++ r2.requests⟩

/-- `QBO.get_item_by_name`: exact-match query on `Name`, `None` when
there is no match, otherwise an `ItemRef` built from the first match. -/
def QBO.get_item_by_name (c : QBO) (s : QBOState) (item_name : String) :
    OpResult (Option ItemRef) :=
  if c.tokenMissing then configFail s else
  ⟨.ok (((s.items.filter fun i => i.Name == item_name).head?).map
      fun i => ⟨i.Id, some i.Name⟩), s,
    [queryRequest ("select * from Item where Name = " ++ item_name)]⟩

/-- `QBO.create_item`: `POST item` with a Service-type item bound to an
income account; returns an `ItemRef` built from the response. -/
def QBO.create_item (c : QBO) (s : QBOState) (item_name account_id : String) :
    OpResult ItemRef :=
  if c.tokenMissing then configFail s else
  let rec_ : ItemRec := ⟨s.freshId, item_name, account_id⟩
  ⟨.ok ⟨rec_.Id, some rec_.Name⟩,
    { s with items := s.items ++ [rec_], nextId := s.nextId + 1 },
    [⟨"item", "POST", some (create_item_body item_name account_id)⟩]⟩

/-- `QBO.get_or_create_item`: look up by name, create when absent. -/
def QBO.get_or_create_item (c : QBO) (s : QBOState) (item_name account_id : String) :
    OpResult ItemRef :=
  let r := c.get_item_by_name s item_name
  match r.result with
  | .error e => ⟨.error e, r.state, r.requests⟩
  | .ok (some item) => ⟨.ok item, r.state, r.requests⟩
  | .ok none =>
      let r2 := c.create_item r.state item_name account_id
      ⟨r2.result, r2.state, r.requests ++ r2.requests⟩

/-- `QBO.create_account`: `POST /account`; returns the new account id. -/
def QBO.create_account (c : QBO) (s : QBOState) (account_name account_type : String) :
    OpResult String :=
  if c.tokenMissing then configFail s else
  let rec_ : AccountRec := ⟨s.freshId, account_name, account_type⟩
  ⟨.ok rec_.Id,
    { s with accounts := s.accounts ++ [rec_], nextId := s.nextId + 1 },
    [⟨"/account", "POST", some (create_account_body account_name account_type)⟩]⟩

/-- `QBO.get_account_id`: exact-match query on `Name`; `None` on no
match, the id on exactly one match, and a raised error on more than
one match. -/
def QBO.get_account_id (c : QBO) (s : QBOState) (account_name : String) :
    OpResult (Option String) :=
  if c.tokenMissing then configFail s else
  let req := queryRequest ("select * from Account where Name = " ++ account_name)
  match s.accounts.filter fun a => a.Name == account_name with
  | [] => ⟨.ok none, s, [req]⟩
  | [a] => ⟨.ok (some a.Id), s, [req]⟩
  | _ :: _ :: _ =>
      ⟨.error (.conflict ("Multiple accounts found with " ++ account_name)), s, [req]⟩

/-- `QBO.get_or_create_account`: look up by name, create when absent,
propagate the multiple-match failure. -/
def QBO.get_or_create_account (c : QBO) (s : QBOState) (account_name account_type : String) :
    OpResult String :=
  let r := c.get_account_id s account_name
  match r.result with
  | .error e => ⟨.error e, r.state, r.requests⟩
  | .ok (some account_id) => ⟨.ok account_id, r.state, r.requests⟩
  | .ok none =>
      let r2 := c.create_account r.state account_name account_type
      ⟨r2.result, r2.state, r.requests ++ r2.requests⟩

/-- `QBO.create_invoice`: `POST invoice` with the body built by
`create_invoice_body`; returns the new invoice id. -/
def QBO.create_invoice (c : QBO) (s : QBOState) (customer_id : String)
    (lines : List InvoiceLine) (created_date : Option Date)
    (currency : Option String) (private_note : Option String)
    (due_date : Option Date) (txn_date : Option Date)
    (tax_detail : Option TaxDetail) (inv_number : Option String) :
    OpResult String :=
  if c.tokenMissing then configFail s else
  ⟨.ok s.freshId, { s with nextId := s.nextId + 1 },
    [⟨"invoice", "POST", some (create_invoice_body customer_id lines created_date
        currency private_note due_date txn_date tax_detail inv_number)⟩]⟩

/-- `QBO.create_invoice_payment`: `POST /payment` with the body built
by `create_invoice_payment_body`; returns the new payment id. -/
def QBO.create_invoice_payment (c : QBO) (s : QBOState)
    (invoice_id : Option String) (customer_id : String) (amount : Rat)
    (date : Date) (qbo_account_id : String) (currency : String)
    (exchange_rate : Option Rat) (private_note : String) :
    OpResult String :=
  if c.tokenMissing then configFail s else
  ⟨.ok s.freshId, { s with nextId := s.nextId + 1 },
    [⟨"/payment", "POST", some (create_invoice_payment_body invoice_id customer_id
        amount date qbo_account_id currency exchange_rate private_note)⟩]⟩

/-- `QBO.create_expense`: `POST /purchase` with the body built by
`create_expense_body`; returns the new purchase id. -/
def QBO.create_expense (c : QBO) (s : QBOState) (amount : Rat) (date : Date)
    (bank_account_id vendor_id expense_account_id : String)
    (private_note : String) (description : Option String) :
    OpResult String :=
  if c.tokenMissing then configFail s else
  ⟨.ok s.freshId, { s with nextId := s.nextId + 1 },
    [⟨"/purchase", "POST", some (create_expense_body amount date bank_account_id
        vendor_id expense_account_id private_note description)⟩]⟩

/-- `QBO.create_transfer`: `POST /transfer` with the body built by
`create_transfer_body`; returns the new transfer id. -/
def QBO.create_transfer (c : QBO) (s : QBOState) (amount : Rat) (date : Date)
    (source_account_id destination_account_id : String)
    (private_note : String) : OpResult String :=
  if c.tokenMissing then configFail s else
  ⟨.ok s.freshId, { s with nextId := s.nextId + 1 },
    [⟨"/transfer", "POST", some (create_transfer_body amount date
        source_account_id destination_account_id private_note)⟩]⟩

/-! ## Claims about the invoice and payment request bodies -/

/-- C3 counterexample: with every optional argument omitted, the
serialized invoice body still carries the `DueDate`, `TxnTaxDetail`,
`PrivateNote` and `DocNumber` keys — mapped to null — rather than
leaving them absent. -/
theorem c3_counterexample_optionals_present_as_null :
    (create_invoice_body "5" [] none (some "USD") none none none none none).lookup "DueDate"
      = some Json.null ∧
    (create_invoice_body "5" [] none (some "USD") none none none none none).lookup "TxnTaxDetail"
      = some Json.null ∧
    (create_invoice_body "5" [] none (some "USD") none none none none none).lookup "PrivateNote"
      = some Json.null ∧
    (create_invoice_body "5" [] none (some "USD") none none none none none).lookup "DocNumber"
      = some Json.null :=
  ⟨rfl, rfl, rfl, rfl⟩

/-- C3 amended: for every `create_invoice` call with the optional
fields (due_date, tax_detail, private_note, inv_number) omitted, the
corresponding keys are present in the serialized body with value null
(the dict literal sets them to `None`), and the invoice lines appear
in the `Line` array 1:1 in the order supplied. -/
theorem c3_omitted_optionals_null_and_lines_in_order
    (customer_id : String) (lines : List InvoiceLine) (currency : Option String) :
    (create_invoice_body customer_id lines none currency none none none none none).lookup "DueDate"
      = some Json.null ∧
    (create_invoice_body customer_id lines none currency none none none none none).lookup "TxnTaxDetail"
      = some Json.null ∧
    (create_invoice_body customer_id lines none currency none none none none none).lookup "PrivateNote"
      = some Json.null ∧
    (create_invoice_body customer_id lines none currency none none none none none).lookup "DocNumber"
      = some Json.null ∧
    (create_invoice_body customer_id lines none currency none none none none none).lookup "Line"
      = some (Json.arr (lines.map InvoiceLine.model_dump)) :=
  ⟨rfl, rfl, rfl, rfl, rfl⟩

/-- C7: when both `txn_date` and `created_date` are supplied, the
serialized `TxnDate` is `created_date` formatted as YYYY-MM-DD
(`created_date` silently overrides `txn_date`); when only `txn_date`
is supplied, `TxnDate` is `txn_date` formatted as YYYY-MM-DD. -/
theorem c7_created_date_overrides_txn_date (customer_id : String)
    (lines : List InvoiceLine) (cd td : Date) (currency : Option String)
    (private_note : Option String) (due_date : Option Date)
    (tax_detail : Option TaxDetail) (inv_number : Option String) :
    (create_invoice_body customer_id lines (some cd) currency private_note
        due_date (some td) tax_detail inv_number).lookup "TxnDate"
      = some (Json.str cd.strftime) ∧
    (create_invoice_body customer_id lines none currency private_note
        due_date (some td) tax_detail inv_number).lookup "TxnDate"
      = some (Json.str td.strftime) := by
  cases due_date <;> exact ⟨rfl, rfl⟩

/-- C8 counterexample: at a concrete call with `exchange_rate` omitted
and `invoice_id` supplied as the empty string, the serialized
`ExchangeRate` is the JSON string "1" rather than the number 1, and no
payment `Line` is attached even though an invoice id was supplied. -/
theorem c8_counterexample_string_default_and_falsy_id :
    (create_invoice_payment_body (some "") "9" 5 ⟨2024, 1, 2⟩ "12" "USD" none "").lookup "ExchangeRate"
      ≠ some (Json.num 1) ∧
    (create_invoice_payment_body (some "") "9" 5 ⟨2024, 1, 2⟩ "12" "USD" none "").lookup "ExchangeRate"
      = some (Json.str "1") ∧
    (create_invoice_payment_body (some "") "9" 5 ⟨2024, 1, 2⟩ "12" "USD" none "").lookup "Line"
      = none := by
  refine ⟨?_, rfl, rfl⟩
  intro h
  rw [show (create_invoice_payment_body (some "") "9" 5 ⟨2024, 1, 2⟩ "12" "USD" none "").lookup "ExchangeRate"
        = some (Json.str "1") from rfl] at h
  exact Option.noConfusion h fun h2 => Json.noConfusion h2

/-- C8 amended: when `exchange_rate` is not supplied, the serialized
`ExchangeRate` is the JSON string "1" (the Python default literal,
serialized as a string, not a number); the payment `Line` referencing
the invoice as a linked transaction is attached exactly when the
supplied invoice id is present and non-empty (Python truthiness). -/
theorem c8_exchange_rate_default_and_line (invoice_id : Option String)
    (customer_id : String) (amount : Rat) (date : Date)
    (qbo_account_id currency private_note : String) :
    (create_invoice_payment_body invoice_id customer_id amount date
        qbo_account_id currency none private_note).lookup "ExchangeRate"
      = some (Json.str "1") ∧
    (create_invoice_payment_body invoice_id customer_id amount date
        qbo_account_id currency none private_note).lookup "Line"
      = (match invoice_id with
         | some iid => if iid = "" then none
             else some (Json.arr [payment_line amount iid])
         | none => none) := by
  cases invoice_id with
  | none => exact ⟨rfl, rfl⟩
  | some iid =>
      rcases eq_or_ne iid "" with h | h
      · subst h
        exact ⟨rfl, rfl⟩
      · simp only [create_invoice_payment_body, if_neg h]
        exact ⟨rfl, rfl⟩

/-- C10: a supplied exchange rate equal to zero is falsy in Python, so
`exchange_rate or "1"` silently replaces it with the default, and the
default is serialized as the JSON string "1", not a number. -/
theorem c10_zero_exchange_rate_replaced_by_string_default
    (invoice_id : Option String) (customer_id : String) (amount : Rat)
    (date : Date) (qbo_account_id currency private_note : String) :
    (create_invoice_payment_body invoice_id customer_id amount date
        qbo_account_id currency (some 0) private_note).lookup "ExchangeRate"
      = some (Json.str "1") := by
  cases invoice_id with
  | none => rfl
  | some iid =>
      rcases eq_or_ne iid "" with h | h
      · subst h; rfl
      · simp only [create_invoice_payment_body, if_neg h]
        rfl

/-! ## Claims about settings persistence -/

/-- A concrete settings value used to exhibit the keys `save` writes. -/
def exampleSettings : Settings :=
  ⟨"11", "22", "33", "7", none, "44", "55"⟩

/-- C9 counterexample: `save` does not write the camel-cased key
`stripeVendorId`; it writes the snake_case field name
`stripe_vendor_id` (pydantic `model_dump` without `by_alias`). -/
theorem c9_counterexample_snake_keys :
    (save exampleSettings).lookup "stripeVendorId" = none ∧
    (save exampleSettings).lookup "stripe_vendor_id" = some (Json.str "7") :=
  ⟨rfl, rfl⟩

/-- C9 amended: `save` writes a flat JSON object keyed by the
snake_case field names (not the camel-cased aliases); the camel-cased
names are the validation aliases, so `load_from_file` accepts a file
keyed by them; and `load_from_file` returns no settings when the file
is absent. -/
theorem c9_save_snake_load_camel (s : Settings) :
    save s = Json.obj
      [("stripe_clearing_account_id", .str s.stripe_clearing_account_id),
       ("stripe_payout_account_id", .str s.stripe_payout_account_id),
       ("stripe_fee_account_id", .str s.stripe_fee_account_id),
       ("stripe_vendor_id", .str s.stripe_vendor_id),
       ("default_income_account_id", optJson s.default_income_account_id),
       ("default_tax_code_id", .str s.default_tax_code_id),
       ("exempt_tax_code_id", .str s.exempt_tax_code_id)] ∧
    _snake_to_camel "stripe_vendor_id" = "stripeVendorId" ∧
    load_from_file (some (Json.obj
      [("stripeClearingAccountId", .str s.stripe_clearing_account_id),
       ("stripePayoutAccountId", .str s.stripe_payout_account_id),
       ("stripeFeeAccountId", .str s.stripe_fee_account_id),
       ("stripeVendorId", .str s.stripe_vendor_id),
       ("defaultIncomeAccountId", optJson s.default_income_account_id),
       ("defaultTaxCodeId", .str s.default_tax_code_id),
       ("exemptTaxCodeId", .str s.exempt_tax_code_id)])) = .ok (some s) ∧
    load_from_file none = .ok none := by
  obtain ⟨a, b, f, v, inc, dt, et⟩ := s
  cases inc <;> exact ⟨rfl, rfl, rfl, rfl⟩

/-! ## Claims about create-response handling -/

/-- C4 counterexample: when the `POST item` response lacks the `Item`
envelope, `create_item` fails with a bare key-lookup error that does
not carry the raw response body — not with a Remote error including
the body, as only `create_customer` does. -/
theorem c4_counterexample_item_bare_key_error :
    create_item_parse (Json.obj [("Fault", Json.null)])
      = .error (.keyError "Item") ∧
    QBOError.carriedBody (.keyError "Item") = none :=
  ⟨rfl, rfl⟩

/-- C4 amended: `create_customer` fails with a Remote error carrying
the raw response body when the `Customer` envelope is missing; the
remaining create operations subscript the envelope key directly and
fail with a bare key-lookup error carrying no body; each operation
succeeds, returning the entity or its id, when the envelope key is
present with a well-formed payload. -/
theorem c4_envelope_handling :
    (∀ resp : Json, resp.lookup "Customer" = none →
      create_customer_parse resp = .error (.remote "Error creating customer" resp)) ∧
    (∀ resp : Json, resp.lookup "Item" = none →
      create_item_parse resp = .error (.keyError "Item")) ∧
    (∀ envelope : String, ∀ resp : Json, resp.lookup envelope = none →
      responseEntityId envelope resp = .error (.keyError envelope)) ∧
    (∀ cu : Customer,
      create_customer_parse (Json.obj [("Customer", customerToJson cu)]) = .ok cu) ∧
    (∀ item_id item_name : String,
      create_item_parse (Json.obj [("Item",
          Json.obj [("Id", .str item_id), ("Name", .str item_name)])])
        = .ok ⟨item_id, some item_name⟩) ∧
    (∀ envelope entity_id : String,
      responseEntityId envelope (Json.obj [(envelope,
          Json.obj [("Id", Json.str entity_id)])]) = .ok (Json.str entity_id)) := by
  refine ⟨?_, ?_, ?_, ?_, ?_, ?_⟩
  · intro resp h
    simp [create_customer_parse, h]
  · intro resp h
    simp [create_item_parse, h]
  · intro envelope resp h
    simp [responseEntityId, h]
  · intro cu
    obtain ⟨dn, i, v, nm⟩ := cu
    cases nm <;> rfl
  · intro item_id item_name
    rfl
  · intro envelope entity_id
    simp [responseEntityId, Json.lookup, lookupKey]

/-- C4 witness: the amended envelope-handling law applied at concrete
responses missing their envelopes. -/
theorem c4_envelope_handling_witness :
    create_customer_parse (Json.obj [])
      = .error (.remote "Error creating customer" (Json.obj [])) ∧
    create_transfer_parse (Json.obj [])
      = .error (.keyError "Transfer") :=
  ⟨c4_envelope_handling.1 (Json.obj []) rfl,
   c4_envelope_handling.2.2.1 "Transfer" (Json.obj []) rfl⟩

/-! ## Claims about the client operations -/

/-- C5: before `set_token` is called (access token or realm id unset),
every public client operation fails with the Configuration error
raised by the guard in `_request` — with no network request issued and
the remote state untouched (`configFail` bundles all three facts). -/
theorem c5_token_guard (c : QBO)
    (h : c.access_token = none ∨ c.realm_id = none) :
    (∀ s tax_code_id, c.get_tax_code s tax_code_id = configFail s) ∧
    (∀ s customer_name, c.get_customer_by_name s customer_name = configFail s) ∧
    (∀ s customer_name currency,
      c.create_customer s customer_name currency = configFail s) ∧
    (∀ s customer_name currency,
      c.get_or_create_customer s customer_name currency = configFail s) ∧
    (∀ s item_name, c.get_item_by_name s item_name = configFail s) ∧
    (∀ s item_name account_id,
      c.create_item s item_name account_id = configFail s) ∧
    (∀ s item_name account_id,
      c.get_or_create_item s item_name account_id = configFail s) ∧
    (∀ s account_name account_type,
      c.create_account s account_name account_type = configFail s) ∧
    (∀ s account_name, c.get_account_id s account_name = configFail s) ∧
    (∀ s account_name account_type,
      c.get_or_create_account s account_name account_type = configFail s) ∧
    (∀ s customer_id lines created_date currency private_note due_date txn_date
        tax_detail inv_number,
      c.create_invoice s customer_id lines created_date currency private_note
        due_date txn_date tax_detail inv_number = configFail s) ∧
    (∀ s invoice_id customer_id amount date qbo_account_id currency
        exchange_rate private_note,
      c.create_invoice_payment s invoice_id customer_id amount date
        qbo_account_id currency exchange_rate private_note = configFail s) ∧
    (∀ s amount date bank_account_id vendor_id expense_account_id private_note
        description,
      c.create_expense s amount date bank_account_id vendor_id
        expense_account_id private_note description = configFail s) ∧
    (∀ s amount date source_account_id destination_account_id private_note,
      c.create_transfer s amount date source_account_id destination_account_id
        private_note = configFail s) := by
  have htm : c.tokenMissing = true := by
    rcases h with h | h <;> simp [QBO.tokenMissing, h]
  refine ⟨?_, ?_, ?_, ?_, ?_, ?_, ?_, ?_, ?_, ?_, ?_, ?_, ?_, ?_⟩
  · intro s x
    simp [QBO.get_tax_code, htm]
  · intro s x
    simp [QBO.get_customer_by_name, htm]
  · intro s x y
    simp [QBO.create_customer, htm]
  · intro s x y
    simp [QBO.get_or_create_customer, QBO.get_customer_by_name, htm, configFail]
  · intro s x
    simp [QBO.get_item_by_name, htm]
  · intro s x y
    simp [QBO.create_item, htm]
  · intro s x y
    simp [QBO.get_or_create_item, QBO.get_item_by_name, htm, configFail]
  · intro s x y
    simp [QBO.create_account, htm]
  · intro s x
    simp [QBO.get_account_id, htm]
  · intro s x y
    simp [QBO.get_or_create_account, QBO.get_account_id, htm, configFail]
  · intro s a b d e f g i j k
    simp [QBO.create_invoice, htm]
  · intro s a b d e f g i j
    simp [QBO.create_invoice_payment, htm]
  · intro s a b d e f g i
    simp [QBO.create_expense, htm]
  · intro s a b d e f
    simp [QBO.create_transfer, htm]

/-- C5 witness: the guard law applied to a fresh client (token never
set) on an empty remote state. -/
theorem c5_token_guard_witness :
    QBO.get_customer_by_name ⟨none, none⟩ {} "Acme Corp" = configFail {} ∧
    QBO.get_or_create_account ⟨none, some "tok"⟩ {} "Stripe Fees" "Expense"
      = configFail {} :=
  ⟨(c5_token_guard ⟨none, none⟩ (Or.inl rfl)).2.1 {} "Acme Corp",
   (c5_token_guard ⟨none, some "tok"⟩ (Or.inr rfl)).2.2.2.2.2.2.2.2.2.1 {}
     "Stripe Fees" "Expense"⟩

/-- C6: when the account lookup matches more than one account,
`get_account_id` — and hence `get_or_create_account` — fails with the
Conflict error and no account is created; on exactly one match the
account id is returned; on no match `get_or_create_account` creates
the account. -/
theorem c6_account_conflict (c : QBO) (s : QBOState)
    (account_name account_type : String) (h : c.tokenMissing = false) :
    (2 ≤ (s.accounts.filter fun a => a.Name == account_name).length →
      (c.get_account_id s account_name).result
        = .error (.conflict ("Multiple accounts found with " ++ account_name)) ∧
      (c.get_or_create_account s account_name account_type).result
        = .error (.conflict ("Multiple accounts found with " ++ account_name)) ∧
      (c.get_or_create_account s account_name account_type).state = s) ∧
    (∀ a, (s.accounts.filter fun a2 => a2.Name == account_name) = [a] →
      (c.get_account_id s account_name).result = .ok (some a.Id) ∧
      (c.get_or_create_account s account_name account_type).result = .ok a.Id ∧
      (c.get_or_create_account s account_name account_type).state = s) ∧
    ((s.accounts.filter fun a => a.Name == account_name) = [] →
      (c.get_or_create_account s account_name account_type).result = .ok s.freshId ∧
      (c.get_or_create_account s account_name account_type).state.accounts
        = s.accounts ++ [⟨s.freshId, account_name, account_type⟩]) := by
  refine ⟨?_, ?_, ?_⟩
  · intro hlen
    cases hfil : s.accounts.filter fun a => a.Name == account_name with
    | nil => rw [hfil] at hlen; simp at hlen
    | cons a t =>
        cases t with
        | nil => rw [hfil] at hlen; simp at hlen
        | cons b t2 =>
            refine ⟨?_, ?_, ?_⟩ <;>
              simp [QBO.get_account_id, QBO.get_or_create_account, h, hfil]
  · intro a hfil
    refine ⟨?_, ?_, ?_⟩ <;>
      simp [QBO.get_account_id, QBO.get_or_create_account, h, hfil]
  · intro hfil
    refine ⟨?_, ?_⟩ <;>
      simp [QBO.get_account_id, QBO.get_or_create_account, QBO.create_account,
        h, hfil]

/-- A client whose token has been set, for concrete evaluations. -/
def tokClient : QBO :=
  QBO.set_token {} ⟨"realm123", "tok456"⟩

/-- A remote state holding two accounts that share a name. -/
def twoFeeAccounts : QBOState :=
  { accounts := [⟨"1", "Stripe Fees", "Expense"⟩, ⟨"2", "Stripe Fees", "Expense"⟩],
    nextId := 3 }

/-- C6 witness: with two accounts named Stripe Fees in the remote
state, the lookup raises the Conflict error and creates nothing. -/
theorem c6_account_conflict_witness :
    (tokClient.get_account_id twoFeeAccounts "Stripe Fees").result
      = .error (.conflict ("Multiple accounts found with " ++ "Stripe Fees")) ∧
    (tokClient.get_or_create_account twoFeeAccounts "Stripe Fees" "Expense").result
      = .error (.conflict ("Multiple accounts found with " ++ "Stripe Fees")) ∧
    (tokClient.get_or_create_account twoFeeAccounts "Stripe Fees" "Expense").state
      = twoFeeAccounts :=
  (c6_account_conflict tokClient twoFeeAccounts "Stripe Fees" "Expense" rfl).1
    (by decide)

/-- A remote state already holding a customer named Acme with currency
CAD. -/
def mismatchedRemote : QBOState :=
  { customers := [⟨"Acme", "1", ⟨"CAD", none⟩⟩], nextId := 2 }

/-- C1: evaluating `get_or_create_customer` at the failing input.  With
a customer named Acme of currency CAD already in the remote state,
`get_or_create_customer("Acme", "USD")` returns that existing CAD
customer unchanged and creates nothing: the name lookup succeeds, so
the not-found branch that contains the currency check and the
disambiguated creation is never entered.  No customer named
`Acme (USD)` is created, contrary to the claim and to the comment in
the source. -/
theorem c1_existing_customer_reused_despite_currency_mismatch :
    (tokClient.get_or_create_customer mismatchedRemote "Acme" "USD").result
      = .ok ⟨"Acme", "1", ⟨"CAD", none⟩⟩ ∧
    (tokClient.get_or_create_customer mismatchedRemote "Acme" "USD").state
      = mismatchedRemote ∧
    (mismatchedRemote.customers.filter
      fun cu => cu.DisplayName == "Acme (USD)") = [] :=
  ⟨rfl, rfl, rfl⟩

/-- Idempotence helper for customers: a successful
`get_or_create_customer` reaches a fixed point after one call. -/
theorem get_or_create_customer_idem (c : QBO) (s : QBOState)
    (customer_name currency : String) (cust : Customer)
    (h : c.tokenMissing = false)
    (h1 : (c.get_or_create_customer s customer_name currency).result = .ok cust) :
    (c.get_or_create_customer
        (c.get_or_create_customer s customer_name currency).state
        customer_name currency).result = .ok cust ∧
    (c.get_or_create_customer
        (c.get_or_create_customer s customer_name currency).state
        customer_name currency).state
      = (c.get_or_create_customer s customer_name currency).state ∧
    ((c.get_or_create_customer s customer_name currency).state).customers.length
      ≤ s.customers.length + 1 := by
  cases hfil : s.customers.filter (fun cu => cu.DisplayName == customer_name) with
  | cons cu rest =>
      simp [QBO.get_or_create_customer, QBO.get_customer_by_name,
        QBO.create_customer, h, hfil] at h1 ⊢
      exact h1
  | nil =>
      simp [QBO.get_or_create_customer, QBO.get_customer_by_name,
        QBO.create_customer, h, hfil, List.filter_append, List.filter_cons] at h1 ⊢
      exact h1

/-- Idempotence helper for items: a successful `get_or_create_item`
reaches a fixed point after one call. -/
theorem get_or_create_item_idem (c : QBO) (s : QBOState)
    (item_name account_id : String) (item : ItemRef)
    (h : c.tokenMissing = false)
    (h1 : (c.get_or_create_item s item_name account_id).result = .ok item) :
    (c.get_or_create_item
        (c.get_or_create_item s item_name account_id).state
        item_name account_id).result = .ok item ∧
    (c.get_or_create_item
        (c.get_or_create_item s item_name account_id).state
        item_name account_id).state
      = (c.get_or_create_item s item_name account_id).state ∧
    ((c.get_or_create_item s item_name account_id).state).items.length
      ≤ s.items.length + 1 := by
  cases hfil : s.items.filter (fun i => i.Name == item_name) with
  | cons i rest =>
      simp [QBO.get_or_create_item, QBO.get_item_by_name,
        QBO.create_item, h, hfil] at h1 ⊢
      exact h1
  | nil =>
      simp [QBO.get_or_create_item, QBO.get_item_by_name,
        QBO.create_item, h, hfil, List.filter_append, List.filter_cons] at h1 ⊢
      exact h1

/-- Idempotence helper for accounts: a successful
`get_or_create_account` reaches a fixed point after one call. -/
theorem get_or_create_account_idem (c : QBO) (s : QBOState)
    (account_name account_type : String) (account_id : String)
    (h : c.tokenMissing = false)
    (h1 : (c.get_or_create_account s account_name account_type).result
      = .ok account_id) :
    (c.get_or_create_account
        (c.get_or_create_account s account_name account_type).state
        account_name account_type).result = .ok account_id ∧
    (c.get_or_create_account
        (c.get_or_create_account s account_name account_type).state
        account_name account_type).state
      = (c.get_or_create_account s account_name account_type).state ∧
    ((c.get_or_create_account s account_name account_type).state).accounts.length
      ≤ s.accounts.length + 1 := by
  cases hfil : s.accounts.filter (fun a => a.Name == account_name) with
  | cons a rest =>
      cases rest with
      | nil =>
          simp [QBO.get_or_create_account, QBO.get_account_id,
            QBO.create_account, h, hfil] at h1 ⊢
          exact h1
      | cons b rest2 =>
          simp [QBO.get_or_create_account, QBO.get_account_id,
            QBO.create_account, h, hfil] at h1
  | nil =>
      simp [QBO.get_or_create_account, QBO.get_account_id,
        QBO.create_account, h, hfil, List.filter_append, List.filter_cons] at h1 ⊢
      exact h1

/-- C2: for every name (and, for customers, currency), a successful
get-or-create call is idempotent: calling again with identical
arguments on the resulting remote state returns the same entity (hence
the same id), leaves the state unchanged, and at most one entity was
created in total.  In this remote model a created customer always
carries the requested currency, so the currency-mismatch branch never
fires, matching the no-mismatch proviso of the claim. -/
theorem c2_get_or_create_idempotent :
    (∀ (c : QBO) (s : QBOState) (customer_name currency : String)
        (cust : Customer), c.tokenMissing = false →
      (c.get_or_create_customer s customer_name currency).result = .ok cust →
      ((c.get_or_create_customer
          (c.get_or_create_customer s customer_name currency).state
          customer_name currency).result = .ok cust ∧
       (c.get_or_create_customer
          (c.get_or_create_customer s customer_name currency).state
          customer_name currency).state
         = (c.get_or_create_customer s customer_name currency).state ∧
       ((c.get_or_create_customer s customer_name currency).state).customers.length
         ≤ s.customers.length + 1)) ∧
    (∀ (c : QBO) (s : QBOState) (item_name account_id : String)
        (item : ItemRef), c.tokenMissing = false →
      (c.get_or_create_item s item_name account_id).result = .ok item →
      ((c.get_or_create_item
          (c.get_or_create_item s item_name account_id).state
          item_name account_id).result = .ok item ∧
       (c.get_or_create_item
          (c.get_or_create_item s item_name account_id).state
          item_name account_id).state
         = (c.get_or_create_item s item_name account_id).state ∧
       ((c.get_or_create_item s item_name account_id).state).items.length
         ≤ s.items.length + 1)) ∧
    (∀ (c : QBO) (s : QBOState) (account_name account_type account_id : String),
      c.tokenMissing = false →
      (c.get_or_create_account s account_name account_type).result = .ok account_id →
      ((c.get_or_create_account
          (c.get_or_create_account s account_name account_type).state
          account_name account_type).result = .ok account_id ∧
       (c.get_or_create_account
          (c.get_or_create_account s account_name account_type).state
          account_name account_type).state
         = (c.get_or_create_account s account_name account_type).state ∧
       ((c.get_or_create_account s account_name account_type).state).accounts.length
         ≤ s.accounts.length + 1)) :=
  ⟨get_or_create_customer_idem, get_or_create_item_idem,
   get_or_create_account_idem⟩

/-- C2 witness: the idempotence law applied to a concrete client and
an empty remote state, for each of the three get-or-create
operations. -/
theorem c2_get_or_create_idempotent_witness :
    ((tokClient.get_or_create_customer
        (tokClient.get_or_create_customer {} "Acme Corp" "USD").state
        "Acme Corp" "USD").result = .ok ⟨"Acme Corp", "0", ⟨"USD", none⟩⟩) ∧
    ((tokClient.get_or_create_item
        (tokClient.get_or_create_item {} "Stripe fee" "33").state
        "Stripe fee" "33").result = .ok ⟨"0", some "Stripe fee"⟩) ∧
    ((tokClient.get_or_create_account
        (tokClient.get_or_create_account {} "Stripe Payouts" "Bank").state
        "Stripe Payouts" "Bank").result = .ok "0") :=
  ⟨(c2_get_or_create_idempotent.1 tokClient {} "Acme Corp" "USD"
      ⟨"Acme Corp", "0", ⟨"USD", none⟩⟩ rfl rfl).1,
   (c2_get_or_create_idempotent.2.1 tokClient {} "Stripe fee" "33"
      ⟨"0", some "Stripe fee"⟩ rfl rfl).1,
   (c2_get_or_create_idempotent.2.2 tokClient {} "Stripe Payouts" "Bank"
      "0" rfl rfl).1⟩
